import Mathlib

/-!
Verification development for the `sikecil-pintar` nutrition scripts.

Shallow embedding conventions:
* Python numbers (floats/ints holding nutrition values) are modelled as `ℚ`;
  Python 3 `round` is round-half-to-even, modelled exactly on `ℚ` by `pyRound`.
* A JSON meal record is the `Meal` structure; every optional JSON field is an
  `Option`, and the scripts' chained `dict.get(key, default)` accesses are the
  `Meal.…`/`FoodItem.…` getter functions below.
* `consumedAt` is stored already parsed (a `Timestamp`): the claims under
  study quantify over records whose timestamps parse, and
  `datetime.fromisoformat` comparison is comparison of `epochSec` while
  `strftime("%Y-%m-%d")` / `.date()` is the `dayKey` field.
* Python dicts built by insertion (`defaultdict` accumulation) are modelled as
  association lists that update in place and append new keys, preserving
  Python 3.7+ insertion order; `sorted(..., reverse=True)` is the stable
  `List.mergeSort` with the reversed comparison.
-/

set_option maxHeartbeats 1600000

/-- Truncation toward zero, the behaviour of Python `int()` on a float. -/
def pyInt (q : ℚ) : ℤ := if q < 0 then -⌊-q⌋ else ⌊q⌋

/-- Python 3 `round(q)`: round half to even (banker's rounding). -/
def pyRound (q : ℚ) : ℤ :=
  if q - ⌊q⌋ < 1/2 then ⌊q⌋
  else if 1/2 < q - ⌊q⌋ then ⌊q⌋ + 1
  else if ⌊q⌋ % 2 = 0 then ⌊q⌋ else ⌊q⌋ + 1

/-- Python `round(q, 2)`: round to 2 decimal places, half to even. -/
def round2 (q : ℚ) : ℚ := (pyRound (q * 100) : ℚ) / 100

/-- A parsed `consumedAt`/`createdAt` value. `epochSec` orders instants the
way comparison of parsed datetimes does; `dayKey` is the `YYYY-MM-DD` text the
scripts obtain with `strftime("%Y-%m-%d")` (equivalently `.date()`) in the
timestamp's own encoded offset. -/
structure Timestamp where
  epochSec : ℤ
  dayKey : String
deriving DecidableEq, Repr

/-- The `analysisData.totals.macros` object; every field optional, as stored. -/
structure Macros where
  protein_g : Option ℚ
  carbs_g : Option ℚ
  fat_g : Option ℚ
  fiber_g : Option ℚ
  sugar_g : Option ℚ
deriving DecidableEq, Repr

/-- The `analysisData.totals.micros` object. -/
structure Micros where
  sodium_mg : Option ℚ
  potassium_mg : Option ℚ
  calcium_mg : Option ℚ
  iron_mg : Option ℚ
  vitamin_a_mcg : Option ℚ
  vitamin_c_mg : Option ℚ
  cholesterol_mg : Option ℚ
deriving DecidableEq, Repr

/-- The `analysisData.totals` object. -/
structure NutrientTotals where
  calories_kcal : Option ℚ
  macros : Option Macros
  micros : Option Micros
  allergens : Option (List String)
  serving_total_g : Option ℚ
deriving DecidableEq, Repr

/-- The `nutrition` object of one composition item. -/
structure FoodNutrition where
  calories_kcal : Option ℚ
  macros : Option Macros
  micros : Option Micros
  allergens : Option (List String)
deriving DecidableEq, Repr

/-- One entry of `analysisData.composition`. -/
structure FoodItem where
  label : Option String
  confidence : Option ℚ
  serving_est_g : Option ℚ
  nutrition : Option FoodNutrition
deriving DecidableEq, Repr

/-- The `analysisData.image_meta` object written by `add_meal`. -/
structure ImageMeta where
  width : Option ℚ
  height : Option ℚ
deriving DecidableEq, Repr

/-- The `analysisData` object. -/
structure AnalysisData where
  totals : Option NutrientTotals
  composition : Option (List FoodItem)
  image_meta : Option ImageMeta
deriving DecidableEq, Repr

/-- One meal record as stored in the JSON array. `consumedAt` is kept parsed
(see the file header); all other fields may be absent. -/
structure Meal where
  id : Option String
  mealType : Option String
  name : Option String
  notes : Option String
  consumedAt : Timestamp
  createdAt : Option Timestamp
  analysisData : Option AnalysisData
deriving DecidableEq, Repr

def Macros.empty : Macros := ⟨none, none, none, none, none⟩

def NutrientTotals.empty : NutrientTotals := ⟨none, none, none, none, none⟩

def FoodNutrition.empty : FoodNutrition := ⟨none, none, none, none⟩

def AnalysisData.empty : AnalysisData := ⟨none, none, none⟩

/-- `meal.get('analysisData', {})`. -/
def Meal.analysis (m : Meal) : AnalysisData := m.analysisData.getD AnalysisData.empty

/-- `analysis.get('totals', {})`. -/
def Meal.totalsObj (m : Meal) : NutrientTotals := m.analysis.totals.getD NutrientTotals.empty

/-- `totals.get('macros', {})`. -/
def Meal.macrosObj (m : Meal) : Macros := m.totalsObj.macros.getD Macros.empty

/-- `totals.get('calories_kcal', 0)`. -/
def Meal.caloriesKcal (m : Meal) : ℚ := m.totalsObj.calories_kcal.getD 0

/-- `macros.get('protein_g', 0)`. -/
def Meal.proteinG (m : Meal) : ℚ := m.macrosObj.protein_g.getD 0

/-- `macros.get('carbs_g', 0)`. -/
def Meal.carbsG (m : Meal) : ℚ := m.macrosObj.carbs_g.getD 0

/-- `macros.get('fat_g', 0)`. -/
def Meal.fatG (m : Meal) : ℚ := m.macrosObj.fat_g.getD 0

/-- `macros.get('fiber_g', 0)`. -/
def Meal.fiberG (m : Meal) : ℚ := m.macrosObj.fiber_g.getD 0

/-- `macros.get('sugar_g', 0)`. -/
def Meal.sugarG (m : Meal) : ℚ := m.macrosObj.sugar_g.getD 0

/-- `analysis.get('composition', [])`. -/
def Meal.composition (m : Meal) : List FoodItem := m.analysis.composition.getD []

/-- `item.get('label', 'unknown')`. -/
def FoodItem.labelD (i : FoodItem) : String := i.label.getD "unknown"

/-- `item.get('nutrition', {})`. -/
def FoodItem.nutritionObj (i : FoodItem) : FoodNutrition := i.nutrition.getD FoodNutrition.empty

/-- `nutrition.get('calories_kcal', 0)` of a composition item. -/
def FoodItem.caloriesKcal (i : FoodItem) : ℚ := i.nutritionObj.calories_kcal.getD 0

/-- `nutrition.get('macros', {}).get('protein_g', 0)` of a composition item. -/
def FoodItem.proteinG (i : FoodItem) : ℚ :=
  (i.nutritionObj.macros.getD Macros.empty).protein_g.getD 0

/-! Operations of `nutrition_report.py` (`NutritionReportGenerator`). -/

/-- Accumulator of `_calculate_totals` (report, lines 178-199): calories,
protein, carbs, fat, fiber. -/
structure TotalsAcc where
  calories : ℚ
  protein : ℚ
  carbs : ℚ
  fat : ℚ
  fiber : ℚ
deriving DecidableEq, Repr

def TotalsAcc.zero : TotalsAcc := ⟨0, 0, 0, 0, 0⟩

/-- One iteration of the `for meal in meals` loop of `_calculate_totals`. -/
def totalsStep (t : TotalsAcc) (m : Meal) : TotalsAcc :=
  ⟨t.calories + m.caloriesKcal, t.protein + m.proteinG, t.carbs + m.carbsG,
    t.fat + m.fatG, t.fiber + m.fiberG⟩

/-- `NutritionReportGenerator._calculate_totals`. -/
def calculateTotals (meals : List Meal) : TotalsAcc :=
  meals.foldl totalsStep TotalsAcc.zero

/-- Per-day accumulator of `_group_by_day` (report, lines 150-176). -/
structure DayData where
  count : ℕ
  calories : ℚ
  protein : ℚ
  carbs : ℚ
  fat : ℚ
deriving DecidableEq, Repr

def DayData.zero : DayData := ⟨0, 0, 0, 0, 0⟩

/-- The `daily_data[date_str]` updates done for one meal in `_group_by_day`. -/
def DayData.addMeal (m : Meal) (d : DayData) : DayData :=
  ⟨d.count + 1, d.calories + m.caloriesKcal, d.protein + m.proteinG,
    d.carbs + m.carbsG, d.fat + m.fatG⟩

/-- Update of the insertion-ordered `defaultdict`: bump the entry of key `k`
in place, or append a fresh default entry (Python creates the default on first
access). -/
def insertDay : List (String × DayData) → String → Meal → List (String × DayData)
  | [], k, m => [(k, DayData.addMeal m DayData.zero)]
  | (k', d) :: rest, k, m =>
      if k' = k then (k', DayData.addMeal m d) :: rest
      else (k', d) :: insertDay rest k m

/-- One iteration of the meal loop of `_group_by_day`. -/
def groupStep (acc : List (String × DayData)) (m : Meal) : List (String × DayData) :=
  insertDay acc m.consumedAt.dayKey m

/-- `NutritionReportGenerator._group_by_day`: group meals by the calendar day
of `consumedAt`. -/
def groupByDay (meals : List Meal) : List (String × DayData) :=
  meals.foldl groupStep []

def barFilledChar : Char := '█'

def barEmptyChar : Char := '░'

/-- `NutritionReportGenerator._create_bar` (lines 233-236):
`'█' * int((percentage / 100) * width) + '░' * (width - filled)`.
Python string repetition with a negative count yields the empty string, which
`Int.toNat` models. -/
def createBar (percentage : ℚ) (width : ℕ) : String :=
  String.mk (List.replicate (pyInt (percentage / 100 * width)).toNat barFilledChar) ++
    String.mk (List.replicate ((width : ℤ) - pyInt (percentage / 100 * width)).toNat barEmptyChar)

def msgLowCalories : String :=
  "Your average calorie intake is quite low. Consider increasing portion sizes."

def msgHighCalories : String :=
  "Your calorie intake is high. Consider reducing portion sizes if weight management is a goal."

def msgLowProtein : String :=
  "Consider increasing protein intake. Aim for lean meats, fish, eggs, or plant-based sources."

def msgHighProtein : String :=
  "Protein intake is very high. Ensure you\x27re balancing with other nutrients."

def msgMealFrequency : String :=
  "Try to have at least 3 balanced meals per day for better nutrition."

def msgLowProteinShare : String :=
  "Consider increasing protein-rich foods in your diet."

def msgHighCarbShare : String :=
  "Your carbohydrate intake is high. Consider balancing with more protein and healthy fats."

def msgBalanced : String :=
  "Your nutrition looks balanced! Keep up the good work."

/-- `NutritionReportGenerator._generate_recommendations` (lines 238-276).
The sequential `recommendations.append` calls become list concatenation in the
same order; the `if/elif` pairs keep their shape. -/
def generateRecommendations (totals : TotalsAcc) (meals : List Meal) : List String :=
  let avgCalories := totals.calories / 7
  let avgProtein := totals.protein / 7
  let calRecs :=
    if avgCalories < 1500 then [msgLowCalories]
    else if 2500 < avgCalories then [msgHighCalories]
    else []
  let protRecs :=
    if avgProtein < 50 then [msgLowProtein]
    else if 150 < avgProtein then [msgHighProtein]
    else []
  let freqRecs := if (meals.length : ℚ) / 7 < 2 then [msgMealFrequency] else []
  let totalMacroGrams := totals.protein + totals.carbs + totals.fat
  let shareRecs :=
    if 0 < totalMacroGrams then
      (if totals.protein / totalMacroGrams * 100 < 15 then [msgLowProteinShare] else []) ++
        (if 60 < totals.carbs / totalMacroGrams * 100 then [msgHighCarbShare] else [])
    else []
  let recs := calRecs ++ protRecs ++ freqRecs ++ shareRecs
  if recs = [] then [msgBalanced] else recs

/-! Operations of `nutrition_analyzer.py` (`NutritionAnalyzer`). -/

/-- The four running sums of `analyze_macros` (lines 35-48):
(protein, carbs, fat, calories). -/
def analyzerSumsStep (s : ℚ × ℚ × ℚ × ℚ) (m : Meal) : ℚ × ℚ × ℚ × ℚ :=
  (s.1 + m.proteinG, s.2.1 + m.carbsG, s.2.2.1 + m.fatG, s.2.2.2 + m.caloriesKcal)

def analyzerSums (meals : List Meal) : ℚ × ℚ × ℚ × ℚ :=
  meals.foldl analyzerSumsStep (0, 0, 0, 0)

/-- The percentage computation of `analyze_macros` (lines 50-58): guarded by
`total_grams > 0`, all three percentages 0 otherwise. -/
def macroPcts (totalProtein totalCarbs totalFat : ℚ) : ℚ × ℚ × ℚ :=
  let totalGrams := totalProtein + totalCarbs + totalFat
  if 0 < totalGrams then
    (totalProtein / totalGrams * 100, totalCarbs / totalGrams * 100,
      totalFat / totalGrams * 100)
  else (0, 0, 0)

/-- Result record of `analyze_macros`. -/
structure MacroAnalysis where
  total_protein : ℚ
  total_carbs : ℚ
  total_fat : ℚ
  total_calories : ℚ
  protein_percentage : ℚ
  carbs_percentage : ℚ
  fat_percentage : ℚ
deriving DecidableEq, Repr

/-- `NutritionAnalyzer.analyze_macros` (lines 33-68). -/
def analyzeMacros (meals : List Meal) : MacroAnalysis :=
  let s := analyzerSums meals
  let pcts := macroPcts s.1 s.2.1 s.2.2.1
  ⟨round2 s.1, round2 s.2.1, round2 s.2.2.1, round2 s.2.2.2,
    round2 pcts.1, round2 pcts.2.1, round2 pcts.2.2⟩

/-- Per-label accumulator of `get_top_foods` (analyzer, lines 111-148). -/
structure FoodAgg where
  count : ℕ
  total_calories : ℚ
  total_protein : ℚ
deriving DecidableEq, Repr

/-- Update of the insertion-ordered `food_count` dict for one composition
item: the entry is created with zero counters on first sight of the label and
then bumped, hence a fresh entry holds `(0+1, 0+cal, 0+prot)`. -/
def insertFood : List (String × FoodAgg) → String → ℚ → ℚ → List (String × FoodAgg)
  | [], label, cal, prot => [(label, ⟨0 + 1, 0 + cal, 0 + prot⟩)]
  | (k, a) :: rest, label, cal, prot =>
      if k = label then
        (k, ⟨a.count + 1, a.total_calories + cal, a.total_protein + prot⟩) :: rest
      else (k, a) :: insertFood rest label cal prot

/-- One iteration of the `for item in composition` loop of `get_top_foods`. -/
def foodItemStep (acc : List (String × FoodAgg)) (i : FoodItem) : List (String × FoodAgg) :=
  insertFood acc i.labelD i.caloriesKcal i.proteinG

/-- One iteration of the `for meal in self.meals` loop of `get_top_foods`. -/
def foodMealStep (acc : List (String × FoodAgg)) (m : Meal) : List (String × FoodAgg) :=
  m.composition.foldl foodItemStep acc

/-- The fully accumulated `food_count` dict of `get_top_foods`. -/
def foodCount (meals : List Meal) : List (String × FoodAgg) :=
  meals.foldl foodMealStep []

/-- Comparison used for `sorted(food_count.items(), key=lambda x: x[1]['count'],
reverse=True)`: Python's stable sort with `reverse=True` keeps ties in
insertion order and puts larger counts first. -/
def foodDescBy (a b : String × FoodAgg) : Bool := b.2.count ≤ a.2.count

/-- `sorted_foods` of `get_top_foods`. -/
def sortedFoods (meals : List Meal) : List (String × FoodAgg) :=
  (foodCount meals).mergeSort foodDescBy

/-- One entry of the list returned by the analyzer's `get_top_foods`. -/
structure FoodEntry where
  food : String
  count : ℕ
  avg_calories : ℚ
  avg_protein : ℚ
deriving DecidableEq, Repr

/-- `NutritionAnalyzer.get_top_foods` (lines 111-148): aggregate, sort
descending by count, truncate to `limit`, and emit per-label averages rounded
to 2 decimal places. -/
def getTopFoods (meals : List Meal) (limit : ℕ) : List FoodEntry :=
  ((sortedFoods meals).take limit).map fun p =>
    ⟨p.1, p.2.count, round2 (p.2.total_calories / (p.2.count : ℚ)),
      round2 (p.2.total_protein / (p.2.count : ℚ))⟩

/-- The recency filter shared by `NutritionReportGenerator.generate_weekly_report`
(lines 45-49) and `NutritionAnalyzer.get_daily_averages` (lines 80-84):
`[meal for meal in meals if parse(meal['consumedAt']) > now - timedelta(days=windowDays)]`.
`timedelta(days=d)` is exactly `d * 86400` seconds. -/
def filterByRecency (meals : List Meal) (windowDays : ℤ) (now : ℤ) : List Meal :=
  meals.filter fun m => decide (now - windowDays * 86400 < m.consumedAt.epochSec)

/-! Operations of `data_export.py` (`NutritionDataExporter`). -/

/-- The six sums of the exporter's `_calculate_totals` (lines 169-192). -/
structure ExportTotals where
  calories : ℚ
  protein : ℚ
  carbs : ℚ
  fat : ℚ
  fiber : ℚ
  sugar : ℚ
deriving DecidableEq, Repr

/-- One iteration of the meal loop of the exporter's `_calculate_totals`. -/
def exportTotalsStep (t : ExportTotals) (m : Meal) : ExportTotals :=
  ⟨t.calories + m.caloriesKcal, t.protein + m.proteinG, t.carbs + m.carbsG,
    t.fat + m.fatG, t.fiber + m.fiberG, t.sugar + m.sugarG⟩

/-- The full-precision accumulation of the exporter's `_calculate_totals`. -/
def exportTotalsRaw (meals : List Meal) : ExportTotals :=
  meals.foldl exportTotalsStep ⟨0, 0, 0, 0, 0, 0⟩

/-- `NutritionDataExporter._calculate_totals`: the accumulated sums returned
already rounded to 2 decimal places (`{k: round(v, 2) for k, v in totals.items()}`). -/
def exportCalculateTotals (meals : List Meal) : ExportTotals :=
  let t := exportTotalsRaw meals
  ⟨round2 t.calories, round2 t.protein, round2 t.carbs, round2 t.fat,
    round2 t.fiber, round2 t.sugar⟩

/-- Number of distinct calendar dates among `consumedAt` values, the
`len(dates)` of `_calculate_daily_averages` (`dates` is a Python `set`). -/
def distinctDayCount (meals : List Meal) : ℕ :=
  ((meals.map fun m => m.consumedAt.dayKey).dedup).length

/-- `NutritionDataExporter._calculate_daily_averages` (lines 194-215): returns
`{}` (here `none`) on the empty record list, otherwise divides the values of
`self._calculate_totals()` — which are already rounded to 2 decimal places —
by the distinct-day count and rounds again. -/
def exportDailyAverages (meals : List Meal) : Option ExportTotals :=
  if meals = [] then none
  else
    let totalDays := distinctDayCount meals
    if totalDays = 0 then none
    else
      let t := exportCalculateTotals meals
      some ⟨round2 (t.calories / (totalDays : ℚ)), round2 (t.protein / (totalDays : ℚ)),
        round2 (t.carbs / (totalDays : ℚ)), round2 (t.fat / (totalDays : ℚ)),
        round2 (t.fiber / (totalDays : ℚ)), round2 (t.sugar / (totalDays : ℚ))⟩

/-! Operations of `meal_tracker.py` (`MealTrackerCLI`). -/

/-- `MealTrackerCLI.add_meal` (lines 43-85): build the new record from the
explicit numeric inputs with zeroed micros and empty composition, and insert
it at the front (`self.meals.insert(0, meal)`). The generated id and the
`datetime.now()` timestamps are passed in as `idStr`/`nowTs`. -/
def addMeal (mealType : String) (calories protein carbs fat : ℚ) (notes : String)
    (nowTs : Timestamp) (idStr : String) (meals : List Meal) : List Meal :=
  let meal : Meal :=
    { id := some idStr
      mealType := some mealType
      name := some (if notes = "" then mealType.capitalize ++ " meal" else notes)
      notes := some notes
      consumedAt := nowTs
      createdAt := some nowTs
      analysisData := some
        { totals := some
            { calories_kcal := some calories
              macros := some ⟨some protein, some carbs, some fat, some 0, some 0⟩
              micros := some ⟨some 0, some 0, some 0, some 0, some 0, some 0, some 0⟩
              allergens := some []
              serving_total_g := some 0 }
          composition := some []
          image_meta := some ⟨some 0, some 0⟩ } }
  meal :: meals

/-- `MealTrackerCLI.delete_last_meal` (lines 159-167): remove the front record
(`self.meals.pop(0)`); on an empty list the data is left unchanged. -/
def deleteLastMeal (meals : List Meal) : List Meal :=
  match meals with
  | [] => []
  | _ :: rest => rest

/-! Claim-side definitions, written from the specification's words, to be
compared with the code-side definitions above. -/

/-- Modelled from the spec: `renderBar(percentage, width)` with
`round(percentage/100 * width)` filled characters — the spec's wording, using
Python `round`, to be compared with `createBar`, which truncates. -/
def createBarSpec (percentage : ℚ) (width : ℕ) : String :=
  String.mk (List.replicate (pyRound (percentage / 100 * width)).toNat barFilledChar) ++
    String.mk (List.replicate ((width : ℤ) - pyRound (percentage / 100 * width)).toNat barEmptyChar)

/-- Modelled from the claim's rule list: the advisories of the five threshold
rules, one `if` per advisory, in the stated order. -/
def firedAdvisories (totals : TotalsAcc) (meals : List Meal) : List String :=
  (if totals.calories / 7 < 1500 then [msgLowCalories] else []) ++
    (if 2500 < totals.calories / 7 then [msgHighCalories] else []) ++
    (if totals.protein / 7 < 50 then [msgLowProtein] else []) ++
    (if 150 < totals.protein / 7 then [msgHighProtein] else []) ++
    (if (meals.length : ℚ) / 7 < 2 then [msgMealFrequency] else []) ++
    (if 0 < totals.protein + totals.carbs + totals.fat ∧
        totals.protein / (totals.protein + totals.carbs + totals.fat) * 100 < 15 then
      [msgLowProteinShare] else []) ++
    (if 0 < totals.protein + totals.carbs + totals.fat ∧
        60 < totals.carbs / (totals.protein + totals.carbs + totals.fat) * 100 then
      [msgHighCarbShare] else [])

/-- Replace the optional macro leaves by their explicit defaults. -/
def fillMacros (o : Option Macros) : Macros :=
  let ma := o.getD Macros.empty
  ⟨some (ma.protein_g.getD 0), some (ma.carbs_g.getD 0), some (ma.fat_g.getD 0),
    some (ma.fiber_g.getD 0), some (ma.sugar_g.getD 0)⟩

/-- Replace an optional `totals` object by one with explicit numeric leaves. -/
def fillTotals (o : Option NutrientTotals) : NutrientTotals :=
  let t := o.getD NutrientTotals.empty
  { t with calories_kcal := some (t.calories_kcal.getD 0), macros := some (fillMacros t.macros) }

/-- Replace an optional item `nutrition` object by one with explicit leaves. -/
def fillNutrition (o : Option FoodNutrition) : FoodNutrition :=
  let n := o.getD FoodNutrition.empty
  { n with calories_kcal := some (n.calories_kcal.getD 0), macros := some (fillMacros n.macros) }

/-- Make a composition item's label and nutrition leaves explicit. -/
def fillItem (i : FoodItem) : FoodItem :=
  { i with label := some i.labelD, nutrition := some (fillNutrition i.nutrition) }

/-- Make `totals` and `composition` of an optional `analysisData` explicit. -/
def fillAnalysis (o : Option AnalysisData) : AnalysisData :=
  let a := o.getD AnalysisData.empty
  { a with
    totals := some (fillTotals a.totals)
    composition := some ((a.composition.getD []).map fillItem) }

/-- The record with every absent `analysisData`/`totals`/`macros`/`nutrition`
sub-object materialised, every missing numeric leaf replaced by an explicit 0,
and a missing composition replaced by the explicit empty sequence. -/
def fillMeal (m : Meal) : Meal :=
  { m with analysisData := some (fillAnalysis m.analysisData) }

/-! Concrete records used by witnesses and counterexamples. -/

/-- 2024-01-03T00:00:00Z. -/
def tsJan3 : Timestamp := ⟨1704240000, "2024-01-03"⟩

/-- 2024-01-03T00:00:01Z. -/
def tsJan3plus : Timestamp := ⟨1704240001, "2024-01-03"⟩

/-- 2024-01-04T00:00:00Z. -/
def tsJan4 : Timestamp := ⟨1704326400, "2024-01-04"⟩

/-- A record carrying only `consumedAt` and a calorie total. -/
def mkCalMeal (ts : Timestamp) (cal : ℚ) : Meal :=
  { id := none, mealType := none, name := none, notes := none, consumedAt := ts,
    createdAt := none,
    analysisData := some
      { totals := some
          { calories_kcal := some cal, macros := none, micros := none,
            allergens := none, serving_total_g := none }
        composition := none, image_meta := none } }

/-- A composition item carrying only a label and a calorie value. -/
def mkCalItem (label : String) (cal : ℚ) : FoodItem :=
  { label := some label, confidence := none, serving_est_g := none,
    nutrition := some
      { calories_kcal := some cal, macros := none, micros := none, allergens := none } }

/-- A record whose analysis data holds only a composition. -/
def mkCompMeal (ts : Timestamp) (items : List FoodItem) : Meal :=
  { id := none, mealType := none, name := none, notes := none, consumedAt := ts,
    createdAt := none,
    analysisData := some
      { totals := none, composition := some items, image_meta := none } }

/-- Two meals on distinct calendar days, 0.033 kcal each: the divergence input
for the exporter's daily averages. The code rounds the sum 0.066 to 0.07,
halves it to 0.035 and rounds up to 0.04 — in Python's floats `0.07/2` sits
strictly above the half-cent, and the exact half-even model agrees, 3 cents
being odd — while the claimed full-precision path gives 0.066/2 = 0.033,
which rounds to 0.03 in both semantics. -/
def exportPair : List Meal := [mkCalMeal tsJan3 (33/1000), mkCalMeal tsJan4 (33/1000)]

/-- One meal whose composition mentions the label "apple" three times with
calorie values 1, 0, 0: the divergence input for the top-food averages. -/
def appleMeal : Meal :=
  mkCompMeal tsJan3 [mkCalItem "apple" 1, mkCalItem "apple" 0, mkCalItem "apple" 0]

/-- Sum of the per-day calorie sums of a grouped result. -/
def dayCalSum (l : List (String × DayData)) : ℚ := (l.map fun p => p.2.calories).sum

/-- Sum of the per-day record counts of a grouped result. -/
def dayCountSum (l : List (String × DayData)) : ℕ := (l.map fun p => p.2.count).sum

/-- Sum of the occurrence counts over an aggregated `food_count` dict. -/
def foodCountSum (l : List (String × FoodAgg)) : ℕ := (l.map fun p => p.2.count).sum

/-! Helper lemmas: loop accumulations as map-sums. -/

theorem foldl_totalsStep_eq (l : List Meal) (acc : TotalsAcc) :
    l.foldl totalsStep acc =
      ⟨acc.calories + (l.map Meal.caloriesKcal).sum,
        acc.protein + (l.map Meal.proteinG).sum,
        acc.carbs + (l.map Meal.carbsG).sum,
        acc.fat + (l.map Meal.fatG).sum,
        acc.fiber + (l.map Meal.fiberG).sum⟩ := by
  induction l generalizing acc with
  | nil => simp
  | cons m t ih =>
    simp only [List.foldl_cons, ih, totalsStep, List.map_cons, List.sum_cons]
    congr 1 <;> ring

theorem calculateTotals_eq (meals : List Meal) :
    calculateTotals meals =
      ⟨(meals.map Meal.caloriesKcal).sum, (meals.map Meal.proteinG).sum,
        (meals.map Meal.carbsG).sum, (meals.map Meal.fatG).sum,
        (meals.map Meal.fiberG).sum⟩ := by
  rw [calculateTotals, foldl_totalsStep_eq]
  simp [TotalsAcc.zero]

theorem foldl_exportTotalsStep_eq (l : List Meal) (acc : ExportTotals) :
    l.foldl exportTotalsStep acc =
      ⟨acc.calories + (l.map Meal.caloriesKcal).sum,
        acc.protein + (l.map Meal.proteinG).sum,
        acc.carbs + (l.map Meal.carbsG).sum,
        acc.fat + (l.map Meal.fatG).sum,
        acc.fiber + (l.map Meal.fiberG).sum,
        acc.sugar + (l.map Meal.sugarG).sum⟩ := by
  induction l generalizing acc with
  | nil => simp
  | cons m t ih =>
    simp only [List.foldl_cons, ih, exportTotalsStep, List.map_cons, List.sum_cons]
    congr 1 <;> ring

theorem exportTotalsRaw_eq (meals : List Meal) :
    exportTotalsRaw meals =
      ⟨(meals.map Meal.caloriesKcal).sum, (meals.map Meal.proteinG).sum,
        (meals.map Meal.carbsG).sum, (meals.map Meal.fatG).sum,
        (meals.map Meal.fiberG).sum, (meals.map Meal.sugarG).sum⟩ := by
  rw [exportTotalsRaw, foldl_exportTotalsStep_eq]
  simp

theorem analyzerSums_eq (meals : List Meal) :
    analyzerSums meals =
      ((meals.map Meal.proteinG).sum, (meals.map Meal.carbsG).sum,
        (meals.map Meal.fatG).sum, (meals.map Meal.caloriesKcal).sum) := by
  have go : ∀ (l : List Meal) (acc : ℚ × ℚ × ℚ × ℚ),
      l.foldl analyzerSumsStep acc =
        (acc.1 + (l.map Meal.proteinG).sum, acc.2.1 + (l.map Meal.carbsG).sum,
          acc.2.2.1 + (l.map Meal.fatG).sum, acc.2.2.2 + (l.map Meal.caloriesKcal).sum) := by
    intro l
    induction l with
    | nil => intro acc; simp
    | cons m t ih =>
      intro acc
      simp only [List.foldl_cons, ih, analyzerSumsStep, List.map_cons, List.sum_cons]
      refine Prod.ext ?_ (Prod.ext ?_ (Prod.ext ?_ ?_)) <;> simp <;> ring
  rw [analyzerSums, go]
  simp

theorem insertDay_calSum (l : List (String × DayData)) (k : String) (m : Meal) :
    dayCalSum (insertDay l k m) = dayCalSum l + m.caloriesKcal := by
  induction l with
  | nil => simp [insertDay, dayCalSum, DayData.addMeal, DayData.zero]
  | cons p rest ih =>
    obtain ⟨k', d⟩ := p
    by_cases h : k' = k
    · simp [insertDay, h, dayCalSum, DayData.addMeal]
      ring
    · simp only [insertDay, if_neg h]
      simp only [dayCalSum, List.map_cons, List.sum_cons] at ih ⊢
      rw [ih]
      ring

theorem insertDay_countSum (l : List (String × DayData)) (k : String) (m : Meal) :
    dayCountSum (insertDay l k m) = dayCountSum l + 1 := by
  induction l with
  | nil => simp [insertDay, dayCountSum, DayData.addMeal, DayData.zero]
  | cons p rest ih =>
    obtain ⟨k', d⟩ := p
    by_cases h : k' = k
    · simp [insertDay, h, dayCountSum, DayData.addMeal]
      ring
    · simp only [insertDay, if_neg h]
      simp only [dayCountSum, List.map_cons, List.sum_cons] at ih ⊢
      omega

theorem foldl_groupStep_calSum (l : List Meal) (acc : List (String × DayData)) :
    dayCalSum (l.foldl groupStep acc) = dayCalSum acc + (l.map Meal.caloriesKcal).sum := by
  induction l generalizing acc with
  | nil => simp
  | cons m t ih =>
    simp only [List.foldl_cons, List.map_cons, List.sum_cons]
    rw [ih, groupStep, insertDay_calSum]
    ring

theorem foldl_groupStep_countSum (l : List Meal) (acc : List (String × DayData)) :
    dayCountSum (l.foldl groupStep acc) = dayCountSum acc + l.length := by
  induction l generalizing acc with
  | nil => simp
  | cons m t ih =>
    simp only [List.foldl_cons, List.length_cons]
    rw [ih, groupStep, insertDay_countSum]
    omega

theorem insertFood_countSum (l : List (String × FoodAgg)) (label : String) (cal prot : ℚ) :
    foodCountSum (insertFood l label cal prot) = foodCountSum l + 1 := by
  induction l with
  | nil => simp [insertFood, foodCountSum]
  | cons p rest ih =>
    obtain ⟨k, a⟩ := p
    by_cases h : k = label
    · simp [insertFood, h, foodCountSum]
      omega
    · simp only [insertFood, if_neg h]
      simp only [foodCountSum, List.map_cons, List.sum_cons] at ih ⊢
      omega

theorem foldl_foodItemStep_countSum (items : List FoodItem) (acc : List (String × FoodAgg)) :
    foodCountSum (items.foldl foodItemStep acc) = foodCountSum acc + items.length := by
  induction items generalizing acc with
  | nil => simp
  | cons i t ih =>
    simp only [List.foldl_cons, List.length_cons]
    rw [ih, foodItemStep, insertFood_countSum]
    omega

theorem foldl_foodMealStep_countSum (l : List Meal) (acc : List (String × FoodAgg)) :
    foodCountSum (l.foldl foodMealStep acc) =
      foodCountSum acc + ((l.map fun m => m.composition.length).sum) := by
  induction l generalizing acc with
  | nil => simp
  | cons m t ih =>
    simp only [List.foldl_cons, List.map_cons, List.sum_cons]
    rw [ih, foodMealStep, foldl_foodItemStep_countSum]
    omega

theorem foodCount_countSum (meals : List Meal) :
    foodCountSum (foodCount meals) = ((meals.map fun m => m.composition.length).sum) := by
  rw [foodCount, foldl_foodMealStep_countSum]
  simp [foodCountSum]

theorem insertFood_count_pos (l : List (String × FoodAgg)) (label : String) (cal prot : ℚ)
    (h : ∀ p ∈ l, 0 < p.2.count) :
    ∀ p ∈ insertFood l label cal prot, 0 < p.2.count := by
  induction l with
  | nil =>
    intro p hp
    simp only [insertFood, List.mem_singleton] at hp
    subst hp
    simp
  | cons q rest ih =>
    obtain ⟨k, a⟩ := q
    by_cases hk : k = label
    · intro p hp
      simp only [insertFood, if_pos hk, List.mem_cons] at hp
      rcases hp with hp | hp
      · subst hp; simp
      · exact h p (List.mem_cons_of_mem _ hp)
    · intro p hp
      simp only [insertFood, if_neg hk, List.mem_cons] at hp
      rcases hp with hp | hp
      · subst hp
        exact h _ (List.mem_cons_self _ _)
      · exact ih (fun r hr => h r (List.mem_cons_of_mem _ hr)) p hp

theorem foldl_foodItemStep_count_pos (items : List FoodItem) (acc : List (String × FoodAgg))
    (h : ∀ p ∈ acc, 0 < p.2.count) :
    ∀ p ∈ items.foldl foodItemStep acc, 0 < p.2.count := by
  induction items generalizing acc with
  | nil => simpa using h
  | cons i t ih =>
    simp only [List.foldl_cons]
    exact ih _ (insertFood_count_pos acc i.labelD i.caloriesKcal i.proteinG h)

theorem foldl_foodMealStep_count_pos (l : List Meal) (acc : List (String × FoodAgg))
    (h : ∀ p ∈ acc, 0 < p.2.count) :
    ∀ p ∈ l.foldl foodMealStep acc, 0 < p.2.count := by
  induction l generalizing acc with
  | nil => simpa using h
  | cons m t ih =>
    simp only [List.foldl_cons]
    exact ih _ (foldl_foodItemStep_count_pos m.composition acc h)

/-! Helper lemmas: the default-filling normalisation is invisible to every
accessor the aggregations read. -/

theorem fillMeal_caloriesKcal (m : Meal) : (fillMeal m).caloriesKcal = m.caloriesKcal := rfl

theorem fillMeal_proteinG (m : Meal) : (fillMeal m).proteinG = m.proteinG := rfl

theorem fillMeal_carbsG (m : Meal) : (fillMeal m).carbsG = m.carbsG := rfl

theorem fillMeal_fatG (m : Meal) : (fillMeal m).fatG = m.fatG := rfl

theorem fillMeal_fiberG (m : Meal) : (fillMeal m).fiberG = m.fiberG := rfl

theorem fillMeal_composition (m : Meal) :
    (fillMeal m).composition = m.composition.map fillItem := rfl

theorem fillItem_labelD (i : FoodItem) : (fillItem i).labelD = i.labelD := rfl

theorem fillItem_caloriesKcal (i : FoodItem) : (fillItem i).caloriesKcal = i.caloriesKcal := rfl

theorem fillItem_proteinG (i : FoodItem) : (fillItem i).proteinG = i.proteinG := rfl

theorem foldl_totalsStep_map_fill (l : List Meal) (acc : TotalsAcc) :
    (l.map fillMeal).foldl totalsStep acc = l.foldl totalsStep acc := by
  induction l generalizing acc with
  | nil => rfl
  | cons m t ih =>
    simp only [List.map_cons, List.foldl_cons]
    exact ih (totalsStep acc m)

theorem foldl_foodItemStep_map_fill (items : List FoodItem) (acc : List (String × FoodAgg)) :
    (items.map fillItem).foldl foodItemStep acc = items.foldl foodItemStep acc := by
  induction items generalizing acc with
  | nil => rfl
  | cons i t ih =>
    simp only [List.map_cons, List.foldl_cons]
    exact ih (foodItemStep acc i)

theorem foldl_foodMealStep_map_fill (l : List Meal) (acc : List (String × FoodAgg)) :
    (l.map fillMeal).foldl foodMealStep acc = l.foldl foodMealStep acc := by
  induction l generalizing acc with
  | nil => rfl
  | cons m t ih =>
    simp only [List.map_cons, List.foldl_cons]
    rw [show foodMealStep acc (fillMeal m) = foodMealStep acc m by
      rw [foodMealStep, foodMealStep, fillMeal_composition, foldl_foodItemStep_map_fill]]
    exact ih (foodMealStep acc m)

theorem foodCount_map_fill (meals : List Meal) :
    foodCount (meals.map fillMeal) = foodCount meals := by
  rw [foodCount, foodCount, foldl_foodMealStep_map_fill]

/-! Claim theorems. -/

/-- Claim C1: for every list of meal records (timestamps kept parsed, as the
claim assumes), the sum over all calendar days of the per-day calorie sums
produced by `_group_by_day` equals the `calories` field of
`_calculate_totals` over the same records, and the per-day counts sum to the
number of records — grouping never drops or double-counts a record. -/
theorem c1_grouping_conservation (meals : List Meal) :
    dayCalSum (groupByDay meals) = (calculateTotals meals).calories ∧
    dayCountSum (groupByDay meals) = meals.length := by
  constructor
  · rw [groupByDay, foldl_groupStep_calSum, calculateTotals_eq]
    simp [dayCalSum]
  · rw [groupByDay, foldl_groupStep_countSum]
    simp [dayCountSum]

/-- Claim C2: for every record list, `windowDays > 0` and reference time
`now`, the recency filter returns the subsequence (order preserved) of exactly
those records whose `consumedAt` is strictly after `now` minus `windowDays`
days; a record exactly at the boundary is excluded. -/
theorem c2_recency_filter (meals : List Meal) (windowDays now : ℤ)
    (hw : 0 < windowDays) :
    (filterByRecency meals windowDays now).Sublist meals ∧
    ∀ m : Meal, m ∈ filterByRecency meals windowDays now ↔
      m ∈ meals ∧ now - windowDays * 86400 < m.consumedAt.epochSec := by
  refine ⟨List.filter_sublist _, fun m => ?_⟩
  simp [filterByRecency, List.mem_filter]

/-- Witness for C2 at the claim's example: `windowDays = 7`,
`now` = 2024-01-10T00:00:00Z (epoch 1704844800); the meal at exactly
2024-01-03T00:00:00Z (epoch 1704240000, exactly `now − 7·86400`) is excluded
and the meal one second later is included. -/
theorem c2_recency_filter_witness :
    filterByRecency [mkCalMeal tsJan3 0, mkCalMeal tsJan3plus 0] 7 1704844800 =
      [mkCalMeal tsJan3plus 0] ∧
    (filterByRecency [mkCalMeal tsJan3 0, mkCalMeal tsJan3plus 0] 7 1704844800).Sublist
      [mkCalMeal tsJan3 0, mkCalMeal tsJan3plus 0] ∧
    ∀ m : Meal,
      m ∈ filterByRecency [mkCalMeal tsJan3 0, mkCalMeal tsJan3plus 0] 7 1704844800 ↔
        m ∈ [mkCalMeal tsJan3 0, mkCalMeal tsJan3plus 0] ∧
          1704844800 - 7 * 86400 < m.consumedAt.epochSec := by
  have h := c2_recency_filter [mkCalMeal tsJan3 0, mkCalMeal tsJan3plus 0] 7 1704844800
    (by norm_num)
  refine ⟨?_, h.1, h.2⟩
  simp [filterByRecency, mkCalMeal, tsJan3, tsJan3plus]

/-- Claim C7: computing the report's nutrition totals and the analyzer's top
foods never fails on absent `analysisData`/`totals`/`macros`/`nutrition`/
`composition` fields (both functions are total over `Meal`, in which all those
fields are optional), and the results are unchanged when every missing
numeric leaf is materialised as an explicit 0 and a missing composition as the
explicit empty sequence (`fillMeal`). -/
theorem c7_missing_fields_default (meals : List Meal) (limit : ℕ) :
    calculateTotals (meals.map fillMeal) = calculateTotals meals ∧
    getTopFoods (meals.map fillMeal) limit = getTopFoods meals limit := by
  constructor
  · rw [calculateTotals, calculateTotals, foldl_totalsStep_map_fill]
  · rw [getTopFoods, getTopFoods, sortedFoods, sortedFoods, foodCount_map_fill]

/-- Claim C9: `add` inserts the newly built record at the front and
`delete-last` removes the front record, so adding a meal and immediately
deleting restores the prior record sequence exactly — whatever id and
timestamps the transient record was given. -/
theorem c9_add_delete_roundtrip (mealType : String) (calories protein carbs fat : ℚ)
    (notes : String) (nowTs : Timestamp) (idStr : String) (meals : List Meal) :
    deleteLastMeal (addMeal mealType calories protein carbs fat notes nowTs idStr meals) =
      meals := rfl

/-- Claim C10: every label aggregated in `food_count` has count at least 1
(an entry is created only when a composition item bearing the label is
counted), so the divisions by `data['count']` in the analyzer's
`get_top_foods` never divide by zero. -/
theorem c10_food_count_positive (meals : List Meal) (p : String × FoodAgg)
    (hp : p ∈ foodCount meals) : 0 < p.2.count :=
  foldl_foodMealStep_count_pos meals [] (by simp) p hp

/-- Witness for C10: on `appleMeal` the aggregated entry for "apple" has
count 3 > 0. -/
theorem c10_food_count_positive_witness :
    0 < (("apple", (⟨3, 1, 0⟩ : FoodAgg)) : String × FoodAgg).2.count :=
  c10_food_count_positive [appleMeal] ("apple", ⟨3, 1, 0⟩)
    (by simp [appleMeal, mkCompMeal, mkCalItem, foodCount, foodMealStep, foodItemStep,
      insertFood, FoodItem.labelD, FoodItem.caloriesKcal, FoodItem.proteinG,
      FoodItem.nutritionObj, Meal.composition, Meal.analysis, Macros.empty,
      FoodNutrition.empty, AnalysisData.empty])

/-- Claim C6: the macro-percentage computation of `analyze_macros` never
divides by zero: under the data-model invariant that macro grams are
non-negative, if the protein+carbs+fat gram sum is 0 then all three
percentages are 0, and otherwise each percentage is that macro's gram sum
divided by the three-macro sum times 100. -/
theorem c6_macro_percentages (meals : List Meal)
    (h : ∀ m ∈ meals, 0 ≤ m.proteinG ∧ 0 ≤ m.carbsG ∧ 0 ≤ m.fatG) :
    ((analyzerSums meals).1 + (analyzerSums meals).2.1 + (analyzerSums meals).2.2.1 = 0 →
      macroPcts (analyzerSums meals).1 (analyzerSums meals).2.1 (analyzerSums meals).2.2.1 =
        (0, 0, 0)) ∧
    ((analyzerSums meals).1 + (analyzerSums meals).2.1 + (analyzerSums meals).2.2.1 ≠ 0 →
      macroPcts (analyzerSums meals).1 (analyzerSums meals).2.1 (analyzerSums meals).2.2.1 =
        ((analyzerSums meals).1 /
            ((analyzerSums meals).1 + (analyzerSums meals).2.1 + (analyzerSums meals).2.2.1) * 100,
          (analyzerSums meals).2.1 /
            ((analyzerSums meals).1 + (analyzerSums meals).2.1 + (analyzerSums meals).2.2.1) * 100,
          (analyzerSums meals).2.2.1 /
            ((analyzerSums meals).1 + (analyzerSums meals).2.1 + (analyzerSums meals).2.2.1) * 100)) := by
  have hnn : 0 ≤ (analyzerSums meals).1 + (analyzerSums meals).2.1 + (analyzerSums meals).2.2.1 := by
    rw [analyzerSums_eq]
    have h1 : 0 ≤ (meals.map Meal.proteinG).sum :=
      List.sum_nonneg fun x hx => by
        obtain ⟨m, hm, rfl⟩ := List.mem_map.mp hx
        exact (h m hm).1
    have h2 : 0 ≤ (meals.map Meal.carbsG).sum :=
      List.sum_nonneg fun x hx => by
        obtain ⟨m, hm, rfl⟩ := List.mem_map.mp hx
        exact (h m hm).2.1
    have h3 : 0 ≤ (meals.map Meal.fatG).sum :=
      List.sum_nonneg fun x hx => by
        obtain ⟨m, hm, rfl⟩ := List.mem_map.mp hx
        exact (h m hm).2.2
    positivity
  constructor
  · intro h0
    rw [macroPcts]
    simp only [h0]
    norm_num
  · intro hne
    have hpos : 0 < (analyzerSums meals).1 + (analyzerSums meals).2.1 + (analyzerSums meals).2.2.1 :=
      lt_of_le_of_ne hnn (Ne.symm hne)
    rw [macroPcts]
    simp only [if_pos hpos]

/-- Witness for C6 on the empty record list: all sums are 0 and all three
percentages are 0. -/
theorem c6_macro_percentages_witness :
    ((analyzerSums []).1 + (analyzerSums []).2.1 + (analyzerSums []).2.2.1 = 0 →
      macroPcts (analyzerSums []).1 (analyzerSums []).2.1 (analyzerSums []).2.2.1 =
        (0, 0, 0)) ∧
    ((analyzerSums []).1 + (analyzerSums []).2.1 + (analyzerSums []).2.2.1 ≠ 0 →
      macroPcts (analyzerSums []).1 (analyzerSums []).2.1 (analyzerSums []).2.2.1 =
        ((analyzerSums []).1 /
            ((analyzerSums []).1 + (analyzerSums []).2.1 + (analyzerSums []).2.2.1) * 100,
          (analyzerSums []).2.1 /
            ((analyzerSums []).1 + (analyzerSums []).2.1 + (analyzerSums []).2.2.1) * 100,
          (analyzerSums []).2.2.1 /
            ((analyzerSums []).1 + (analyzerSums []).2.1 + (analyzerSums []).2.2.1) * 100)) :=
  c6_macro_percentages [] (by simp)

/-- Counterexample for C3: at percentage 37 and width 40 the code truncates
`14.8` to 14 filled glyphs, while the claim's `round(percentage/100 * width)`
yields 15, so the bar of `_create_bar` differs from the claimed one. -/
theorem c3_render_bar_counterexample : createBar 37 40 ≠ createBarSpec 37 40 := by
  have h1 : pyInt ((37 : ℚ) / 100 * (40 : ℕ)) = 14 := by
    rw [pyInt]
    norm_num [Int.floor_eq_iff]
  have h2 : pyRound ((37 : ℚ) / 100 * (40 : ℕ)) = 15 := by
    rw [pyRound]
    norm_num [Int.floor_eq_iff]
  rw [createBar, createBarSpec, h1, h2]
  decide

/-- Claim C3 as amended: `_create_bar` emits `int((p/100)*w)` filled glyphs —
truncation toward zero, which for the claim's domain `0 ≤ p` is the floor,
not Python `round` — followed by `w` minus that many unfilled glyphs; for
`p` in 0–100 the bar is exactly `w` glyphs wide, and the claim's three
examples hold: 20+20 at (50,40), 0 filled at (0,40), 40 filled at (100,40). -/
theorem c3_render_bar_amended (p : ℚ) (w : ℕ) (h0 : 0 ≤ p) (h1 : p ≤ 100) :
    createBar p w =
      String.mk (List.replicate (⌊p / 100 * w⌋).toNat barFilledChar ++
        List.replicate (w - (⌊p / 100 * w⌋).toNat) barEmptyChar) ∧
    (createBar p w).length = w ∧
    createBar 50 40 =
      String.mk (List.replicate 20 barFilledChar ++ List.replicate 20 barEmptyChar) ∧
    createBar 0 40 = String.mk (List.replicate 40 barEmptyChar) ∧
    createBar 100 40 = String.mk (List.replicate 40 barFilledChar) := by
  have hx0 : (0 : ℚ) ≤ p / 100 * w := by positivity
  have hpy : pyInt (p / 100 * w) = ⌊p / 100 * w⌋ := by
    rw [pyInt, if_neg (not_lt.mpr hx0)]
  have hf0 : 0 ≤ ⌊p / 100 * w⌋ := Int.floor_nonneg.mpr hx0
  have hfw : ⌊p / 100 * w⌋ ≤ (w : ℤ) := by
    have hle : p / 100 * w ≤ (w : ℚ) := by
      have hp1 : p / 100 ≤ 1 := by linarith [div_le_one_of_le h1 (by norm_num : (0:ℚ) ≤ 100)]
      calc p / 100 * w ≤ 1 * w := by
            apply mul_le_mul_of_nonneg_right hp1 (by positivity)
        _ = (w : ℚ) := one_mul _
    calc ⌊p / 100 * w⌋ ≤ ⌊(w : ℚ)⌋ := Int.floor_le_floor hle
      _ = (w : ℤ) := Int.floor_natCast w
  have hsub : ((w : ℤ) - ⌊p / 100 * w⌋).toNat = w - (⌊p / 100 * w⌋).toNat := by omega
  have hbar : createBar p w =
      String.mk (List.replicate (⌊p / 100 * w⌋).toNat barFilledChar ++
        List.replicate (w - (⌊p / 100 * w⌋).toNat) barEmptyChar) := by
    rw [createBar, hpy, hsub]
    rfl
  have hlen : (createBar p w).length = w := by
    rw [hbar]
    have hL : ∀ l : List Char, (String.mk l).length = l.length := fun l => rfl
    rw [hL, List.length_append, List.length_replicate, List.length_replicate]
    omega
  have h50 : pyInt ((50 : ℚ) / 100 * (40 : ℕ)) = 20 := by
    rw [pyInt]
    norm_num [Int.floor_eq_iff]
  have h00 : pyInt ((0 : ℚ) / 100 * (40 : ℕ)) = 0 := by
    rw [pyInt]
    norm_num
  have h100 : pyInt ((100 : ℚ) / 100 * (40 : ℕ)) = 40 := by
    rw [pyInt]
    norm_num [Int.floor_eq_iff]
  refine ⟨hbar, hlen, ?_, ?_, ?_⟩
  · rw [createBar, h50]
    decide
  · rw [createBar, h00]
    decide
  · rw [createBar, h100]
    decide

/-- Witness for the amended C3 at percentage 50, width 40. -/
theorem c3_render_bar_amended_witness :
    (0 : ℚ) ≤ 50 ∧ (50 : ℚ) ≤ 100 ∧
    (createBar 50 40 =
      String.mk (List.replicate (⌊(50 : ℚ) / 100 * (40 : ℕ)⌋).toNat barFilledChar ++
        List.replicate (40 - (⌊(50 : ℚ) / 100 * (40 : ℕ)⌋).toNat) barEmptyChar) ∧
    (createBar 50 40).length = 40 ∧
    createBar 50 40 =
      String.mk (List.replicate 20 barFilledChar ++ List.replicate 20 barEmptyChar) ∧
    createBar 0 40 = String.mk (List.replicate 40 barEmptyChar) ∧
    createBar 100 40 = String.mk (List.replicate 40 barFilledChar)) :=
  ⟨by norm_num, by norm_num, c3_render_bar_amended 50 40 (by norm_num) (by norm_num)⟩

theorem elif_eq_append (c1 c2 : Prop) [Decidable c1] [Decidable c2]
    (hx : ¬(c1 ∧ c2)) (s1 s2 : String) :
    (if c1 then [s1] else if c2 then [s2] else []) =
      (if c1 then [s1] else []) ++ (if c2 then [s2] else []) := by
  by_cases h1 : c1
  · have h2 : ¬c2 := fun h => hx ⟨h1, h⟩
    simp [h1, h2]
  · simp [h1]

theorem guarded_pair_eq (c0 c1 c2 : Prop) [Decidable c0] [Decidable c1] [Decidable c2]
    (s1 s2 : String) :
    (if c0 then
        (if c1 then [s1] else []) ++ (if c2 then [s2] else [])
      else []) =
      (if c0 ∧ c1 then [s1] else []) ++ (if c0 ∧ c2 then [s2] else []) := by
  by_cases h0 : c0 <;> simp [h0]

theorem if_singleton_eq_nil (c : Prop) [Decidable c] (s : String) :
    ((if c then [s] else []) = []) ↔ ¬c := by
  by_cases h : c <;> simp [h]

theorem not_mem_if_singleton (x s : String) (c : Prop) [Decidable c] (hxs : x ≠ s) :
    x ∉ (if c then [s] else []) := by
  by_cases h : c <;> simp [h, hxs]

theorem balanced_not_mem_fired (t : TotalsAcc) (meals : List Meal) :
    msgBalanced ∉ firedAdvisories t meals := by
  intro hmem
  simp only [firedAdvisories, List.mem_append] at hmem
  rcases hmem with ((((((h | h) | h) | h) | h) | h) | h) <;>
    exact not_mem_if_singleton _ _ _ (by decide) h

theorem generateRecommendations_eq_fired (t : TotalsAcc) (meals : List Meal) :
    generateRecommendations t meals =
      (if firedAdvisories t meals = [] then [msgBalanced] else firedAdvisories t meals) := by
  have hcal : ¬(t.calories / 7 < 1500 ∧ 2500 < t.calories / 7) := by
    rintro ⟨a, b⟩
    linarith
  have hprot : ¬(t.protein / 7 < 50 ∧ 150 < t.protein / 7) := by
    rintro ⟨a, b⟩
    linarith
  have hfired : firedAdvisories t meals =
      (if t.calories / 7 < 1500 then [msgLowCalories]
        else if 2500 < t.calories / 7 then [msgHighCalories] else []) ++
      (if t.protein / 7 < 50 then [msgLowProtein]
        else if 150 < t.protein / 7 then [msgHighProtein] else []) ++
      (if (meals.length : ℚ) / 7 < 2 then [msgMealFrequency] else []) ++
      (if 0 < t.protein + t.carbs + t.fat then
        (if t.protein / (t.protein + t.carbs + t.fat) * 100 < 15
          then [msgLowProteinShare] else []) ++
          (if 60 < t.carbs / (t.protein + t.carbs + t.fat) * 100
            then [msgHighCarbShare] else [])
        else []) := by
    rw [firedAdvisories, elif_eq_append _ _ hcal, elif_eq_append _ _ hprot,
      guarded_pair_eq]
    simp [List.append_assoc]
  rw [generateRecommendations, hfired]

/-- Claim C4: `_generate_recommendations` evaluates exactly the five fixed
threshold rules in the stated order — average daily calories (`totals/7`)
below 1500 or above 2500 (mutually exclusive), average daily protein below 50
or above 150 (mutually exclusive), average meals per day below 2, protein
share of macro grams below 15% or carbs share above 60% (share rules apply
when the macro-gram sum is positive) — appending one advisory per rule that
fires, and returns the single balanced affirmation if and only if no rule
fired. -/
theorem c4_recommendations (t : TotalsAcc) (meals : List Meal) :
    generateRecommendations t meals =
      (if firedAdvisories t meals = [] then [msgBalanced] else firedAdvisories t meals) ∧
    (firedAdvisories t meals = [] ↔
      ¬(t.calories / 7 < 1500) ∧ ¬(2500 < t.calories / 7) ∧ ¬(t.protein / 7 < 50) ∧
        ¬(150 < t.protein / 7) ∧ ¬((meals.length : ℚ) / 7 < 2) ∧
        ¬(0 < t.protein + t.carbs + t.fat ∧
          t.protein / (t.protein + t.carbs + t.fat) * 100 < 15) ∧
        ¬(0 < t.protein + t.carbs + t.fat ∧
          60 < t.carbs / (t.protein + t.carbs + t.fat) * 100)) ∧
    ¬(t.calories / 7 < 1500 ∧ 2500 < t.calories / 7) ∧
    ¬(t.protein / 7 < 50 ∧ 150 < t.protein / 7) ∧
    (generateRecommendations t meals = [msgBalanced] ↔ firedAdvisories t meals = []) := by
  refine ⟨generateRecommendations_eq_fired t meals, ?_, ?_, ?_, ?_⟩
  · simp only [firedAdvisories, List.append_eq_nil, if_singleton_eq_nil]
    tauto
  · rintro ⟨a, b⟩
    linarith
  · rintro ⟨a, b⟩
    linarith
  · rw [generateRecommendations_eq_fired t meals]
    by_cases hF : firedAdvisories t meals = []
    · simp [hF]
    · rw [if_neg hF]
      constructor
      · intro heq
        exact absurd (heq ▸ List.mem_singleton_self msgBalanced)
          (balanced_not_mem_fired t meals)
      · intro heq
        exact absurd heq hF

/-- Witness for C4 on all-zero totals and no meals: the low-calorie,
low-protein and meal-frequency rules fire. -/
theorem c4_recommendations_witness :
    generateRecommendations TotalsAcc.zero [] =
      (if firedAdvisories TotalsAcc.zero [] = [] then [msgBalanced]
        else firedAdvisories TotalsAcc.zero []) ∧
    (firedAdvisories TotalsAcc.zero [] = [] ↔
      ¬(TotalsAcc.zero.calories / 7 < 1500) ∧ ¬(2500 < TotalsAcc.zero.calories / 7) ∧
        ¬(TotalsAcc.zero.protein / 7 < 50) ∧ ¬(150 < TotalsAcc.zero.protein / 7) ∧
        ¬((([] : List Meal).length : ℚ) / 7 < 2) ∧
        ¬(0 < TotalsAcc.zero.protein + TotalsAcc.zero.carbs + TotalsAcc.zero.fat ∧
          TotalsAcc.zero.protein /
            (TotalsAcc.zero.protein + TotalsAcc.zero.carbs + TotalsAcc.zero.fat) * 100 < 15) ∧
        ¬(0 < TotalsAcc.zero.protein + TotalsAcc.zero.carbs + TotalsAcc.zero.fat ∧
          60 < TotalsAcc.zero.carbs /
            (TotalsAcc.zero.protein + TotalsAcc.zero.carbs + TotalsAcc.zero.fat) * 100)) ∧
    ¬(TotalsAcc.zero.calories / 7 < 1500 ∧ 2500 < TotalsAcc.zero.calories / 7) ∧
    ¬(TotalsAcc.zero.protein / 7 < 50 ∧ 150 < TotalsAcc.zero.protein / 7) ∧
    (generateRecommendations TotalsAcc.zero [] = [msgBalanced] ↔
      firedAdvisories TotalsAcc.zero [] = []) :=
  c4_recommendations TotalsAcc.zero []

theorem distinctDayCount_pos (meals : List Meal) (h : meals ≠ []) :
    0 < distinctDayCount meals := by
  rw [distinctDayCount]
  apply List.length_pos.mpr
  simp only [ne_eq, List.dedup_eq_nil, List.map_eq_nil]
  exact h

/-- Claim C5 as amended: for every non-empty record list the export summary's
`daily_averages` are obtained by dividing the totals of
`_calculate_totals` — which are already rounded to 2 decimal places — by the
number of distinct calendar dates, rounding the quotient to 2 decimal places
again; the division consumes the rounded sums, not the full-precision ones. -/
theorem c5_export_averages_amended (meals : List Meal) (h : meals ≠ []) :
    0 < distinctDayCount meals ∧
    exportDailyAverages meals = some
      ⟨round2 (round2 ((meals.map Meal.caloriesKcal).sum) / (distinctDayCount meals : ℚ)),
        round2 (round2 ((meals.map Meal.proteinG).sum) / (distinctDayCount meals : ℚ)),
        round2 (round2 ((meals.map Meal.carbsG).sum) / (distinctDayCount meals : ℚ)),
        round2 (round2 ((meals.map Meal.fatG).sum) / (distinctDayCount meals : ℚ)),
        round2 (round2 ((meals.map Meal.fiberG).sum) / (distinctDayCount meals : ℚ)),
        round2 (round2 ((meals.map Meal.sugarG).sum) / (distinctDayCount meals : ℚ))⟩ := by
  have hd : 0 < distinctDayCount meals := distinctDayCount_pos meals h
  have hne : ¬(distinctDayCount meals = 0) := Nat.pos_iff_ne_zero.mp hd
  refine ⟨hd, ?_⟩
  simp only [exportDailyAverages, if_neg h, if_neg hne, exportCalculateTotals,
    exportTotalsRaw_eq]

theorem round2_exportPair_sum : round2 (33/500 : ℚ) = 7/100 := by
  rw [round2, pyRound]
  norm_num

theorem round2_zero : round2 (0 : ℚ) = 0 := by
  rw [round2, pyRound]
  norm_num

theorem round2_code_quotient : round2 (7/200 : ℚ) = 4/100 := by
  rw [round2, pyRound]
  norm_num [Int.floor_eq_iff]

theorem round2_full_precision_case : round2 ((33/500 : ℚ) / 2) = 3/100 := by
  rw [round2, pyRound]
  norm_num [Int.floor_eq_iff]

theorem exportPair_ne_nil : exportPair ≠ [] := by simp [exportPair]

theorem exportPair_distinctDayCount : distinctDayCount exportPair = 2 := by
  simp [distinctDayCount, exportPair, mkCalMeal, tsJan3, tsJan4]

theorem exportPair_calSum : (exportPair.map Meal.caloriesKcal).sum = 33/500 := by
  simp [exportPair, mkCalMeal, Meal.caloriesKcal, Meal.totalsObj, Meal.analysis]
  norm_num

theorem exportPair_totals : exportCalculateTotals exportPair = ⟨7/100, 0, 0, 0, 0, 0⟩ := by
  rw [exportCalculateTotals, exportTotalsRaw_eq]
  have hp : (exportPair.map Meal.proteinG).sum = 0 := by
    simp [exportPair, mkCalMeal, Meal.proteinG, Meal.macrosObj, Meal.totalsObj,
      Meal.analysis, Macros.empty]
  have hc : (exportPair.map Meal.carbsG).sum = 0 := by
    simp [exportPair, mkCalMeal, Meal.carbsG, Meal.macrosObj, Meal.totalsObj,
      Meal.analysis, Macros.empty]
  have hf : (exportPair.map Meal.fatG).sum = 0 := by
    simp [exportPair, mkCalMeal, Meal.fatG, Meal.macrosObj, Meal.totalsObj,
      Meal.analysis, Macros.empty]
  have hfi : (exportPair.map Meal.fiberG).sum = 0 := by
    simp [exportPair, mkCalMeal, Meal.fiberG, Meal.macrosObj, Meal.totalsObj,
      Meal.analysis, Macros.empty]
  have hs : (exportPair.map Meal.sugarG).sum = 0 := by
    simp [exportPair, mkCalMeal, Meal.sugarG, Meal.macrosObj, Meal.totalsObj,
      Meal.analysis, Macros.empty]
  rw [exportPair_calSum, hp, hc, hf, hfi, hs, round2_exportPair_sum, round2_zero]

/-- Counterexample for C5: on two meals, each 0.033 kcal, on two distinct
calendar days, the exporter's daily average for calories is 0.04 — it divides
the total already rounded to 0.07 and rounds the quotient 0.035 up — while
the claimed full-precision computation, the raw sum 0.066 divided by the
distinct-day count and rounded only for display, gives 0.03. The same two
values arise from the program's binary floats, where 0.07/2 lies strictly
above the half-cent. -/
theorem c5_export_averages_counterexample :
    exportDailyAverages exportPair = some ⟨4/100, 0, 0, 0, 0, 0⟩ ∧
    round2 ((exportPair.map Meal.caloriesKcal).sum / (distinctDayCount exportPair : ℚ)) =
      3/100 ∧
    (4 : ℚ)/100 ≠ 3/100 := by
  refine ⟨?_, ?_, by norm_num⟩
  · rw [exportDailyAverages, if_neg exportPair_ne_nil]
    simp only [exportPair_distinctDayCount, exportPair_totals]
    norm_num [round2_code_quotient, round2_zero]
  · rw [exportPair_calSum, exportPair_distinctDayCount]
    push_cast
    exact round2_full_precision_case

/-- Witness for the amended C5 at the concrete two-meal input. -/
theorem c5_export_averages_amended_witness :
    0 < distinctDayCount exportPair ∧
    exportDailyAverages exportPair = some
      ⟨round2 (round2 ((exportPair.map Meal.caloriesKcal).sum) /
          (distinctDayCount exportPair : ℚ)),
        round2 (round2 ((exportPair.map Meal.proteinG).sum) / (distinctDayCount exportPair : ℚ)),
        round2 (round2 ((exportPair.map Meal.carbsG).sum) / (distinctDayCount exportPair : ℚ)),
        round2 (round2 ((exportPair.map Meal.fatG).sum) / (distinctDayCount exportPair : ℚ)),
        round2 (round2 ((exportPair.map Meal.fiberG).sum) / (distinctDayCount exportPair : ℚ)),
        round2 (round2 ((exportPair.map Meal.sugarG).sum) /
          (distinctDayCount exportPair : ℚ))⟩ :=
  c5_export_averages_amended exportPair exportPair_ne_nil

theorem appleMeal_foodCount :
    foodCount [appleMeal] = [("apple", (⟨3, 1, 0⟩ : FoodAgg))] := by
  simp [appleMeal, mkCompMeal, mkCalItem, foodCount, foodMealStep, foodItemStep, insertFood,
    FoodItem.labelD, FoodItem.caloriesKcal, FoodItem.proteinG, FoodItem.nutritionObj,
    Meal.composition, Meal.analysis, Macros.empty, FoodNutrition.empty, AnalysisData.empty]

theorem appleMeal_sortedFoods :
    sortedFoods [appleMeal] = [("apple", (⟨3, 1, 0⟩ : FoodAgg))] := by
  rw [sortedFoods, appleMeal_foodCount]
  exact List.perm_singleton.mp (List.mergeSort_perm _ _)

theorem round2_third : round2 ((3 : ℚ)⁻¹) = 33/100 := by
  rw [round2, pyRound]
  norm_num

/-- Claim C8 as amended: the aggregation of the analyzer's `get_top_foods`
conserves counts (their sum over the whole `food_count` dict, hence over the
returned entries plus the truncated tail, is the total number of composition
entries), the returned sequence is sorted descending by count (the stable
descending sort of the insertion-ordered dict, so ties stay in
first-encountered order), it is truncated to at most `limit` entries, and each
entry's averages are the label's calorie and protein sums divided by its
count and then rounded to 2 decimal places. -/
theorem c8_top_foods_amended (meals : List Meal) (limit : ℕ) :
    foodCountSum (foodCount meals) = ((meals.map fun m => m.composition.length).sum) ∧
    (sortedFoods meals).Perm (foodCount meals) ∧
    (getTopFoods meals limit).Pairwise (fun a b => b.count ≤ a.count) ∧
    (getTopFoods meals limit).length = min limit (foodCount meals).length ∧
    ((getTopFoods meals limit).map FoodEntry.count).sum +
        foodCountSum ((sortedFoods meals).drop limit) =
      ((meals.map fun m => m.composition.length).sum) ∧
    ∀ e ∈ getTopFoods meals limit, ∃ label agg, (label, agg) ∈ foodCount meals ∧
      e = ⟨label, agg.count, round2 (agg.total_calories / (agg.count : ℚ)),
        round2 (agg.total_protein / (agg.count : ℚ))⟩ := by
  have hperm : (sortedFoods meals).Perm (foodCount meals) := List.mergeSort_perm _ _
  have hsorted : (sortedFoods meals).Pairwise fun a b => b.2.count ≤ a.2.count := by
    have ht : ∀ a b c : String × FoodAgg, foodDescBy a b = true → foodDescBy b c = true →
        foodDescBy a c = true := by
      intro a b c hab hbc
      simp only [foodDescBy, decide_eq_true_eq] at hab hbc ⊢
      omega
    have htot : ∀ a b : String × FoodAgg, (foodDescBy a b || foodDescBy b a) = true := by
      intro a b
      simp only [foodDescBy, Bool.or_eq_true, decide_eq_true_eq]
      omega
    exact (List.sorted_mergeSort ht htot (foodCount meals)).imp fun h => by
      simpa [foodDescBy] using h
  refine ⟨foodCount_countSum meals, hperm, ?_, ?_, ?_, ?_⟩
  · rw [getTopFoods, List.pairwise_map]
    exact List.Pairwise.sublist (List.take_sublist _ _) hsorted
  · rw [getTopFoods, List.length_map, List.length_take, hperm.length_eq]
  · have hmm : ((getTopFoods meals limit).map FoodEntry.count).sum =
        foodCountSum ((sortedFoods meals).take limit) := by
      rw [getTopFoods, List.map_map, foodCountSum]
      rfl
    rw [hmm]
    have hsplit : foodCountSum ((sortedFoods meals).take limit) +
        foodCountSum ((sortedFoods meals).drop limit) = foodCountSum (sortedFoods meals) := by
      rw [foodCountSum, foodCountSum, foodCountSum, ← List.sum_append, ← List.map_append,
        List.take_append_drop]
    rw [hsplit]
    have hps : foodCountSum (sortedFoods meals) = foodCountSum (foodCount meals) := by
      rw [foodCountSum, foodCountSum]
      exact (hperm.map _).sum_eq
    rw [hps, foodCount_countSum]
  · intro e he
    rw [getTopFoods] at he
    obtain ⟨p, hp, rfl⟩ := List.mem_map.mp he
    exact ⟨p.1, p.2, hperm.mem_iff.mp (List.mem_of_mem_take hp), rfl⟩

/-- Counterexample for C8: on one meal whose composition lists "apple" three
times with calories 1, 0, 0, the analyzer returns `avg_calories = 0.33` —
`round(1/3, 2)` — while the claimed exact quotient of the calorie sum by the
count is `1/3`, and `0.33 ≠ 1/3`. -/
theorem c8_top_foods_counterexample :
    foodCount [appleMeal] = [("apple", (⟨3, 1, 0⟩ : FoodAgg))] ∧
    getTopFoods [appleMeal] 10 = [⟨"apple", 3, 33/100, 0⟩] ∧
    ((1 : ℚ) / 3 = 1/3) ∧
    (33 : ℚ)/100 ≠ 1/3 := by
  refine ⟨appleMeal_foodCount, ?_, by norm_num, by norm_num⟩
  rw [getTopFoods, appleMeal_sortedFoods]
  simp [round2_third, round2_zero]

/-- Witness for the amended C8 at the concrete one-meal input. -/
theorem c8_top_foods_amended_witness :
    foodCountSum (foodCount [appleMeal]) =
      (([appleMeal].map fun m => m.composition.length).sum) ∧
    (sortedFoods [appleMeal]).Perm (foodCount [appleMeal]) ∧
    (getTopFoods [appleMeal] 10).Pairwise (fun a b => b.count ≤ a.count) ∧
    (getTopFoods [appleMeal] 10).length = min 10 (foodCount [appleMeal]).length ∧
    ((getTopFoods [appleMeal] 10).map FoodEntry.count).sum +
        foodCountSum ((sortedFoods [appleMeal]).drop 10) =
      (([appleMeal].map fun m => m.composition.length).sum) ∧
    ∀ e ∈ getTopFoods [appleMeal] 10, ∃ label agg, (label, agg) ∈ foodCount [appleMeal] ∧
      e = ⟨label, agg.count, round2 (agg.total_calories / (agg.count : ℚ)),
        round2 (agg.total_protein / (agg.count : ℚ))⟩ :=
  c8_top_foods_amended [appleMeal] 10
